import Mathlib

/-!
Verification of the kazuma smart-grid siting engine (scoring_utils.py,
siting_engine.py, models.py) against its specification.

Modelling conventions:
* Python floats are embedded as rationals (`ℚ`); every arithmetic step of the
  source is mirrored exactly, so all results are exact values.
* `round(x, 1)` is embedded as `round1`, Python round-half-even to one
  decimal place on the exact rational value.
* The geometric distance `pythagorean_distance` uses `cos` and `sqrt`, which
  have no exact rational embedding; every scoring function therefore takes
  the distance function as an explicit parameter `dist`, and the theorems
  quantify over it.  The only facts about `pythagorean_distance` a claim
  relies on are that coincident points are at distance 0 (used through the
  constant-zero instance `zeroDist`).
* Python `int(n * 0.9)` on a list length is embedded as `9 * n / 10`
  (natural-number division); the two agree at all realistic list sizes.
-/

/-! ## Rounding: Python round-half-even -/

/-- Python round-half-even on a rational, returning an integer:
nearest integer, ties going to the even neighbour.  `Rat.floor` is used
rather than `⌊·⌋` so the function evaluates inside the kernel. -/
def pyRound (x : ℚ) : ℤ :=
  if x - x.floor < 1/2 then x.floor
  else if 1/2 < x - x.floor then x.floor + 1
  else if x.floor % 2 = 0 then x.floor else x.floor + 1

/-- Python round(x, 1): round-half-even at the first decimal place. -/
def round1 (x : ℚ) : ℚ := (pyRound (x * 10) : ℚ) / 10

theorem ratFloor_eq_floor (x : ℚ) : x.floor = ⌊x⌋ := by
  rw [Rat.floor_def, Rat.floor_def']

theorem pyRound_le_add_half (x : ℚ) : (pyRound x : ℚ) ≤ x + 1/2 := by
  unfold pyRound
  rw [ratFloor_eq_floor]
  have hf : (⌊x⌋ : ℚ) ≤ x := Int.floor_le x
  split_ifs with h1 h2 h3 <;> push_cast <;> linarith

theorem sub_half_le_pyRound (x : ℚ) : x - 1/2 ≤ (pyRound x : ℚ) := by
  unfold pyRound
  rw [ratFloor_eq_floor]
  have hf : x < (⌊x⌋ : ℚ) + 1 := Int.lt_floor_add_one x
  split_ifs with h1 h2 h3 <;> push_cast <;> linarith

theorem round1_le_intBound (x : ℚ) (k : ℤ) (h : x ≤ (k : ℚ)) : round1 x ≤ (k : ℚ) := by
  unfold round1
  have h1 : (pyRound (x * 10) : ℚ) ≤ x * 10 + 1/2 := pyRound_le_add_half (x * 10)
  have h2 : (pyRound (x * 10) : ℚ) < (10 * k : ℤ) + 1 := by push_cast; linarith
  have h3 : pyRound (x * 10) ≤ 10 * k := by exact_mod_cast Int.lt_add_one_iff.mp (by exact_mod_cast h2)
  have h4 : (pyRound (x * 10) : ℚ) ≤ ((10 * k : ℤ) : ℚ) := by exact_mod_cast h3
  push_cast at h4 ⊢
  linarith

theorem intBound_le_round1 (x : ℚ) (k : ℤ) (h : (k : ℚ) ≤ x) : (k : ℚ) ≤ round1 x := by
  unfold round1
  have h1 : x * 10 - 1/2 ≤ (pyRound (x * 10) : ℚ) := sub_half_le_pyRound (x * 10)
  have h2 : ((10 * k : ℤ) : ℚ) - 1 < (pyRound (x * 10) : ℚ) := by push_cast; linarith
  have h3 : 10 * k ≤ pyRound (x * 10) := by
    have := Int.lt_iff_add_one_le.mp (show 10 * k - 1 < pyRound (x * 10) by exact_mod_cast (by push_cast at h2 ⊢; linarith : ((10 * k - 1 : ℤ) : ℚ) < (pyRound (x * 10) : ℚ)))
    omega
  have h4 : ((10 * k : ℤ) : ℚ) ≤ (pyRound (x * 10) : ℚ) := by exact_mod_cast h3
  push_cast at h4 ⊢
  linarith

/-! ## Distance thresholds (scoring_utils.py module constants) -/

def DISTANCE_EXCELLENT : ℚ := 50
def DISTANCE_GOOD : ℚ := 100
def DISTANCE_MODERATE : ℚ := 200
def DISTANCE_FAIR : ℚ := 300

def TRANSMISSION_LOCAL : ℚ := 50
def TRANSMISSION_REGIONAL : ℚ := 150
def TRANSMISSION_BULK : ℚ := 300
def TRANSMISSION_LONG : ℚ := 500

/-- Type of the distance function `pythagorean_distance(lat1, lon1, lat2, lon2)`,
kept as a parameter because the source computes it with cos and sqrt. -/
abbrev DistFn : Type := ℚ → ℚ → ℚ → ℚ → ℚ

/-- Distance function for scenarios in which every source lies exactly at the
node location: `pythagorean_distance` of two identical points is 0. -/
def zeroDist : DistFn := fun _ _ _ _ => 0

/-! ## proximity_decay_factor (scoring_utils.py lines 83-110) -/

/-- Embedding of `proximity_decay_factor(distance_km)`. -/
def proximity_decay_factor (distance_km : ℚ) : ℚ :=
  if distance_km < DISTANCE_EXCELLENT then 1.0
  else if distance_km < DISTANCE_GOOD then
    1.0 - (distance_km - DISTANCE_EXCELLENT) / (DISTANCE_GOOD - DISTANCE_EXCELLENT) * 0.3
  else if distance_km < DISTANCE_MODERATE then
    0.7 - (distance_km - DISTANCE_GOOD) / (DISTANCE_MODERATE - DISTANCE_GOOD) * 0.3
  else if distance_km < DISTANCE_FAIR then
    0.4 - (distance_km - DISTANCE_MODERATE) / (DISTANCE_FAIR - DISTANCE_MODERATE) * 0.2
  else 0.0

/-- Linear interpolation from value y0 at x0 to value y1 at x1, evaluated at d. -/
def linearInterp (x0 x1 y0 y1 d : ℚ) : ℚ := y0 + (d - x0) / (x1 - x0) * (y1 - y0)

/-- The piecewise-linear proximity curve exactly as the spec words it:
1.0 below 50 km, linearly 1.0 to 0.7 over [50,100), 0.7 to 0.4 over [100,200),
0.4 to 0.2 over [200,300), 0.0 at and above 300 km. -/
def generationProximitySpec (d : ℚ) : ℚ :=
  if d < 50 then 1.0
  else if d < 100 then linearInterp 50 100 1.0 0.7 d
  else if d < 200 then linearInterp 100 200 0.7 0.4 d
  else if d < 300 then linearInterp 200 300 0.4 0.2 d
  else 0.0

/-! ## transmission_decay_factor (scoring_utils.py lines 113-190) -/

inductive DecayCurve where
  | gentle
  | moderate
  | steep
deriving DecidableEq

/-- Plant size category: economic range of the transmission voltage class
(source lines 132-144, first member of the selected pair). -/
def transmission_max_range (plant_capacity_mw : ℚ) : ℚ :=
  if plant_capacity_mw ≥ 500 then TRANSMISSION_BULK
  else if plant_capacity_mw ≥ 100 then TRANSMISSION_REGIONAL
  else TRANSMISSION_LOCAL

/-- Plant size category: decay curve shape (source lines 132-144, second
member of the selected pair). -/
def transmission_decay_curve (plant_capacity_mw : ℚ) : DecayCurve :=
  if plant_capacity_mw ≥ 500 then .gentle
  else if plant_capacity_mw ≥ 100 then .moderate
  else .steep

/-- The `base_factor` computed at source lines 155-188 (within-range proximity
factor, by band and decay curve). -/
def transmission_base_factor (distance_km plant_capacity_mw : ℚ) : ℚ :=
  if distance_km < TRANSMISSION_LOCAL then 1.0
  else if distance_km < TRANSMISSION_REGIONAL then
    match transmission_decay_curve plant_capacity_mw with
    | .steep => 1.0 - (distance_km - TRANSMISSION_LOCAL) / (TRANSMISSION_REGIONAL - TRANSMISSION_LOCAL) * 0.7
    | .moderate => 1.0 - (distance_km - TRANSMISSION_LOCAL) / (TRANSMISSION_REGIONAL - TRANSMISSION_LOCAL) * 0.4
    | .gentle => 1.0 - (distance_km - TRANSMISSION_LOCAL) / (TRANSMISSION_REGIONAL - TRANSMISSION_LOCAL) * 0.2
  else if distance_km < TRANSMISSION_BULK then
    match transmission_decay_curve plant_capacity_mw with
    | .steep => 0.3 - (distance_km - TRANSMISSION_REGIONAL) / (TRANSMISSION_BULK - TRANSMISSION_REGIONAL) * 0.3
    | .moderate => 0.6 - (distance_km - TRANSMISSION_REGIONAL) / (TRANSMISSION_BULK - TRANSMISSION_REGIONAL) * 0.4
    | .gentle => 0.8 - (distance_km - TRANSMISSION_REGIONAL) / (TRANSMISSION_BULK - TRANSMISSION_REGIONAL) * 0.3
  else
    if plant_capacity_mw ≥ 1000 then
      0.5 - (distance_km - TRANSMISSION_BULK) / (TRANSMISSION_LONG - TRANSMISSION_BULK) * 0.4
    else if plant_capacity_mw ≥ 500 then
      0.2 - (distance_km - TRANSMISSION_BULK) / (TRANSMISSION_LONG - TRANSMISSION_BULK) * 0.2
    else 0.0

/-- Embedding of `transmission_decay_factor(distance_km, plant_capacity_mw)`. -/
def transmission_decay_factor (distance_km plant_capacity_mw : ℚ) : ℚ :=
  if distance_km > transmission_max_range plant_capacity_mw then
    if plant_capacity_mw ≥ 1000 ∧ distance_km < TRANSMISSION_LONG then
      0.1 - (distance_km - transmission_max_range plant_capacity_mw) /
          (TRANSMISSION_LONG - transmission_max_range plant_capacity_mw) * 0.1
    else 0.0
  else
    max 0.0 (transmission_base_factor distance_km plant_capacity_mw)

theorem transmission_max_range_eq (c : ℚ) :
    transmission_max_range c = if 500 ≤ c then 300 else if 100 ≤ c then 150 else 50 := by
  unfold transmission_max_range TRANSMISSION_BULK TRANSMISSION_REGIONAL TRANSMISSION_LOCAL
  simp only [ge_iff_le]

/-- C1: for every distance d at or above 0, `proximity_decay_factor` equals the
exact piecewise-linear curve of the spec: 1.0 below 50 km, linear 1.0 to 0.7
over [50,100), 0.7 to 0.4 over [100,200), 0.4 to 0.2 over [200,300), and 0.0
at or above 300 km. -/
theorem proximity_decay_matches_spec_curve (d : ℚ) (hd : 0 ≤ d) :
    proximity_decay_factor d = generationProximitySpec d := by
  unfold proximity_decay_factor generationProximitySpec linearInterp
  unfold DISTANCE_EXCELLENT DISTANCE_GOOD DISTANCE_MODERATE DISTANCE_FAIR
  split_ifs <;> ring

theorem proximity_decay_matches_spec_curve_witness :
    0 ≤ (75 : ℚ) ∧ proximity_decay_factor 75 = generationProximitySpec 75 :=
  ⟨by norm_num, proximity_decay_matches_spec_curve 75 (by norm_num)⟩

/-- C2: beyond the class max range (300 km for capacity at least 500 MW,
150 km for capacity in [100,500), 50 km for capacity below 100 MW), the
transmission decay is 0.1 - (d - 300)/200 * 0.1 for plants of at least
1000 MW at distances below 500 km, and exactly 0 for every other plant. -/
theorem transmission_decay_beyond_range (c d : ℚ)
    (h : d > (if 500 ≤ c then (300 : ℚ) else if 100 ≤ c then 150 else 50)) :
    transmission_decay_factor d c =
      if 1000 ≤ c ∧ d < 500 then 0.1 - (d - 300) / 200 * 0.1 else 0 := by
  have hr : d > transmission_max_range c := by
    rw [transmission_max_range_eq]; exact h
  unfold transmission_decay_factor
  rw [if_pos hr]
  by_cases hbig : c ≥ 1000 ∧ d < TRANSMISSION_LONG
  · have h500 : (500 : ℚ) ≤ c := le_trans (by norm_num) hbig.1
    have hmr : transmission_max_range c = 300 := by
      rw [transmission_max_range_eq, if_pos h500]
    have hpos : 1000 ≤ c ∧ d < 500 := ⟨hbig.1, hbig.2⟩
    rw [if_pos hbig, hmr, if_pos hpos]
    unfold TRANSMISSION_LONG
    norm_num
  · have hneg : ¬(1000 ≤ c ∧ d < 500) := fun hcon => hbig ⟨hcon.1, hcon.2⟩
    rw [if_neg hbig, if_neg hneg]
    norm_num

theorem transmission_decay_beyond_range_witness :
    (400 : ℚ) > (if (500 : ℚ) ≤ 1200 then (300 : ℚ) else if (100 : ℚ) ≤ 1200 then 150 else 50) ∧
      transmission_decay_factor 400 1200 =
        (if (1000 : ℚ) ≤ 1200 ∧ (400 : ℚ) < 500 then 0.1 - ((400 : ℚ) - 300) / 200 * 0.1 else 0) :=
  ⟨by norm_num, transmission_decay_beyond_range 1200 400 (by norm_num)⟩

/-- C8: a plant with capacity below 100 MW has a step transmission decay:
exactly 1.0 at every distance up to and including 50 km, and exactly 0.0 at
every distance beyond 50 km, because the beyond-range cutoff (strict d > 50)
fires before the gradual decay segments can apply. -/
theorem small_plant_step_decay (c d : ℚ) (hc : c < 100) (hd : 0 ≤ d) :
    (d ≤ 50 → transmission_decay_factor d c = 1) ∧
      (50 < d → transmission_decay_factor d c = 0) := by
  have h500 : ¬ (500 : ℚ) ≤ c := by linarith
  have h100 : ¬ (100 : ℚ) ≤ c := by linarith
  have hmr : transmission_max_range c = 50 := by
    rw [transmission_max_range_eq, if_neg h500, if_neg h100]
  have hcurve : transmission_decay_curve c = .steep := by
    unfold transmission_decay_curve
    rw [if_neg h500, if_neg h100]
  constructor
  · intro hle
    unfold transmission_decay_factor
    rw [hmr, if_neg (not_lt.mpr hle)]
    unfold transmission_base_factor
    unfold TRANSMISSION_LOCAL TRANSMISSION_REGIONAL TRANSMISSION_BULK TRANSMISSION_LONG
    by_cases hlt : d < 50
    · rw [if_pos hlt]
      norm_num [max_def]
    · have heq : d = 50 := le_antisymm hle (not_lt.mp hlt)
      subst heq
      rw [if_neg hlt, if_pos (show (50 : ℚ) < 150 by norm_num), hcurve]
      show max 0.0 (1.0 - ((50 : ℚ) - 50) / (150 - 50) * 0.7) = 1
      norm_num [max_def]
  · intro hgt
    have hno : ¬ (c ≥ 1000 ∧ d < TRANSMISSION_LONG) := fun hcon => by
      have : (1000 : ℚ) ≤ c := hcon.1
      linarith
    unfold transmission_decay_factor
    rw [hmr, if_pos hgt, if_neg hno]
    norm_num

theorem small_plant_step_decay_witness :
    ((50 : ℚ) < 100 ∧ 0 ≤ (50 : ℚ) ∧ transmission_decay_factor 50 50 = 1) ∧
      ((50 : ℚ) < 100 ∧ 0 ≤ (51 : ℚ) ∧ transmission_decay_factor 51 50 = 0) :=
  ⟨⟨by norm_num, by norm_num, (small_plant_step_decay 50 50 (by norm_num) (by norm_num)).1 (by norm_num)⟩,
   ⟨by norm_num, by norm_num, (small_plant_step_decay 50 51 (by norm_num) (by norm_num)).2 (by norm_num)⟩⟩

/-! ## Source records and the clean-generation score
(scoring_utils.py lines 193-310) -/

/-- One element of the `energy_sources` list of tuples
`(lat, lon, capacity_mw, clean_multiplier)`. -/
structure EnergySource where
  latitude : ℚ
  longitude : ℚ
  capacity_mw : ℚ
  clean_multiplier : ℚ
deriving DecidableEq

/-- A `PowerPlant` record restricted to the fields the transmission scoring
reads: coordinates and nameplate capacity. -/
structure PowerPlant where
  latitude : ℚ
  longitude : ℚ
  nameplate_mw : ℚ
deriving DecidableEq

/-- Embedding of `calculate_capacity_adequacy_factor(available_capacity_mw, demand_mw)`
(source lines 265-310). -/
def calculate_capacity_adequacy_factor (available_capacity_mw demand_mw : ℚ) : ℚ :=
  if demand_mw ≤ 0 then 1.0
  else
    if available_capacity_mw / demand_mw ≥ 3.0 then 1.20
    else if available_capacity_mw / demand_mw ≥ 2.0 then 1.10
    else if available_capacity_mw / demand_mw ≥ 1.5 then 1.00
    else if available_capacity_mw / demand_mw ≥ 1.0 then 0.95
    else if available_capacity_mw / demand_mw ≥ 0.7 then 0.85
    else if available_capacity_mw / demand_mw ≥ 0.5 then 0.70
    else 0.50

/-- The loop of source lines 231-244, raw-score accumulator: sum over sources
of capacity times clean multiplier times proximity decay. -/
def clean_raw_score (dist : DistFn) (node_lat node_lon : ℚ)
    (energy_sources : List EnergySource) : ℚ :=
  (energy_sources.map fun s =>
    s.capacity_mw * s.clean_multiplier *
      proximity_decay_factor (dist node_lat node_lon s.latitude s.longitude)).sum

/-- The loop of source lines 231-244, nearby-capacity accumulator: sum of
capacity times clean multiplier over sources at distance strictly below
`DISTANCE_FAIR` (300 km). -/
def clean_nearby_capacity (dist : DistFn) (node_lat node_lon : ℚ)
    (energy_sources : List EnergySource) : ℚ :=
  (energy_sources.map fun s =>
    if dist node_lat node_lon s.latitude s.longitude < DISTANCE_FAIR
    then s.capacity_mw * s.clean_multiplier else 0).sum

/-- The `base_score` of source line 247: raw score normalized to a 0-100
scale and clamped from above. -/
def clean_base_score (dist : DistFn) (node_lat node_lon : ℚ)
    (energy_sources : List EnergySource) (normalization_factor : ℚ) : ℚ :=
  min 100.0 (clean_raw_score dist node_lat node_lon energy_sources / normalization_factor * 100.0)

/-- Embedding of `calculate_clean_gen_score` (source lines 193-262).  The
Python guard `if demand_mw and demand_mw > 0` is truthiness (not `None`,
not 0) followed by positivity, which for a present value reduces to
`0 < dm`. -/
def calculate_clean_gen_score (dist : DistFn) (node_lat node_lon : ℚ)
    (energy_sources : List EnergySource) (normalization_factor : ℚ)
    (demand_mw : Option ℚ) : ℚ :=
  if energy_sources.isEmpty then 0.0
  else
    match demand_mw with
    | some dm =>
      if 0 < dm then
        round1 (clean_base_score dist node_lat node_lon energy_sources normalization_factor *
          calculate_capacity_adequacy_factor
            (clean_nearby_capacity dist node_lat node_lon energy_sources) dm)
      else round1 (clean_base_score dist node_lat node_lon energy_sources normalization_factor)
    | none => round1 (clean_base_score dist node_lat node_lon energy_sources normalization_factor)

/-- The raw-score loop of `calculate_transmission_score` (source lines
452-474): the source adds a contribution only when the decay factor is
strictly positive, mirrored by the inner conditional. -/
def transmission_loop_raw_score (dist : DistFn) (node_lat node_lon : ℚ)
    (power_plants : List PowerPlant) : ℚ :=
  (power_plants.map fun p =>
    if 0 < transmission_decay_factor (dist node_lat node_lon p.latitude p.longitude) p.nameplate_mw
    then p.nameplate_mw *
      transmission_decay_factor (dist node_lat node_lon p.latitude p.longitude) p.nameplate_mw
    else 0).sum

/-- Embedding of `calculate_transmission_score` (source lines 419-486). -/
def calculate_transmission_score (dist : DistFn) (node_lat node_lon : ℚ)
    (power_plants : List PowerPlant) (normalization_factor : ℚ) : ℚ :=
  if power_plants.isEmpty then 50.0
  else
    round1 (min 100.0
      (transmission_loop_raw_score dist node_lat node_lon power_plants / normalization_factor * 100.0))

/-! ## Normalization factor estimators (scoring_utils.py lines 489-599) -/

/-- Python `max(list)` on a list known to be non-empty (0 on the empty list,
which the source never reaches). -/
def pymax : List ℚ → ℚ
  | [] => 0
  | x :: xs => xs.foldl max x

/-- Raw transmission score of one node inside the estimator loop
(source lines 568-580); unlike `calculate_transmission_score`, the estimator
adds capacity times decay unconditionally. -/
def transmission_raw_score (dist : DistFn) (node : ℚ × ℚ)
    (power_plants : List PowerPlant) : ℚ :=
  (power_plants.map fun p =>
    p.nameplate_mw * transmission_decay_factor (dist node.1 node.2 p.latitude p.longitude) p.nameplate_mw).sum

/-- Sorting then indexing at `int(len * 0.9)` (source lines 531-534 and
582-585); the index is in range for every non-empty list, so the `getD`
default is never read. -/
def percentile90 (l : List ℚ) : ℚ :=
  (l.insertionSort (· ≤ ·)).getD (9 * l.length / 10) 0

/-- The per-node raw score list of `estimate_normalization_factor`
(source lines 518-529). -/
def clean_raw_scores (dist : DistFn) (all_nodes : List (ℚ × ℚ))
    (energy_sources : List EnergySource) : List ℚ :=
  all_nodes.map fun nd => clean_raw_score dist nd.1 nd.2 energy_sources

/-- Python `max(l) if l else dflt`. -/
def pymax_or_default (l : List ℚ) (dflt : ℚ) : ℚ :=
  if l.isEmpty then dflt else pymax l

/-- Embedding of `estimate_normalization_factor` (source lines 489-542).
`int(len(raw_scores) * 0.9)` is embedded as `9 * n / 10` in ℕ, and
`max(raw_scores) or 100.0` as the max when it is nonzero, else 100
(Python treats 0.0 as falsy). -/
def estimate_normalization_factor (dist : DistFn) (all_nodes : List (ℚ × ℚ))
    (energy_sources : List EnergySource) : ℚ :=
  if all_nodes.isEmpty ∨ energy_sources.isEmpty then 100.0
  else if percentile90 (clean_raw_scores dist all_nodes energy_sources) < 1.0 then
    (if pymax (clean_raw_scores dist all_nodes energy_sources) = 0 then 100.0
     else pymax (clean_raw_scores dist all_nodes energy_sources))
  else percentile90 (clean_raw_scores dist all_nodes energy_sources)

/-- The per-node raw score list of `estimate_transmission_normalization_factor`
(source lines 566-580). -/
def transmission_raw_scores (dist : DistFn) (all_nodes : List (ℚ × ℚ))
    (power_plants : List PowerPlant) : List ℚ :=
  all_nodes.map fun nd => transmission_raw_score dist nd power_plants

/-- Embedding of `estimate_transmission_normalization_factor`
(source lines 545-599). -/
def estimate_transmission_normalization_factor (dist : DistFn)
    (all_nodes : List (ℚ × ℚ)) (power_plants : List PowerPlant) : ℚ :=
  if all_nodes.isEmpty ∨ power_plants.isEmpty then 5000.0
  else if percentile90 (transmission_raw_scores dist all_nodes power_plants) < 1000.0 then
    (if pymax_or_default (transmission_raw_scores dist all_nodes power_plants) 5000.0 < 1000.0
     then 5000.0
     else pymax_or_default (transmission_raw_scores dist all_nodes power_plants) 5000.0)
  else percentile90 (transmission_raw_scores dist all_nodes power_plants)

/-! ## Supporting lemmas for the clean-generation claims -/

theorem proximity_decay_nonneg (d : ℚ) : 0 ≤ proximity_decay_factor d := by
  unfold proximity_decay_factor
  unfold DISTANCE_EXCELLENT DISTANCE_GOOD DISTANCE_MODERATE DISTANCE_FAIR
  split_ifs <;> linarith

theorem adequacy_factor_bounds (a dm : ℚ) :
    0 ≤ calculate_capacity_adequacy_factor a dm ∧
      calculate_capacity_adequacy_factor a dm ≤ 1.2 := by
  unfold calculate_capacity_adequacy_factor
  split_ifs <;> norm_num

theorem clean_raw_score_nonneg (dist : DistFn) (nlat nlon : ℚ)
    (srcs : List EnergySource)
    (h : ∀ s ∈ srcs, 0 ≤ s.capacity_mw ∧ 0 ≤ s.clean_multiplier) :
    0 ≤ clean_raw_score dist nlat nlon srcs := by
  unfold clean_raw_score
  apply List.sum_nonneg
  intro x hx
  simp only [List.mem_map] at hx
  obtain ⟨s, hs, rfl⟩ := hx
  exact mul_nonneg (mul_nonneg (h s hs).1 (h s hs).2)
    (proximity_decay_nonneg (dist nlat nlon s.latitude s.longitude))

theorem clean_base_score_bounds (dist : DistFn) (nlat nlon : ℚ)
    (srcs : List EnergySource) (norm : ℚ)
    (h : ∀ s ∈ srcs, 0 ≤ s.capacity_mw ∧ 0 ≤ s.clean_multiplier) (hn : 0 < norm) :
    0 ≤ clean_base_score dist nlat nlon srcs norm ∧
      clean_base_score dist nlat nlon srcs norm ≤ 100 := by
  unfold clean_base_score
  constructor
  · apply le_min
    · norm_num
    · have hraw := clean_raw_score_nonneg dist nlat nlon srcs h
      positivity
  · exact le_trans (min_le_left _ _) (by norm_num)

/-- Summing an if-guarded term over a list equals summing over the filtered
list. -/
theorem sum_map_ite {α : Type} (p : α → Prop) [DecidablePred p] (f : α → ℚ) :
    ∀ l : List α,
      (l.map fun x => if p x then f x else 0).sum = ((l.filter fun x => p x).map f).sum
  | [] => rfl
  | x :: xs => by
    by_cases hx : p x <;>
      simp [List.filter_cons, hx, sum_map_ite p f xs]

/-- The adequacy bands exactly as the spec words them: the ratio of nearby
capacity to demand is mapped through fixed thresholds. -/
def adequacyBandsSpec (nearbyCapacity demand : ℚ) : ℚ :=
  if nearbyCapacity / demand ≥ 3.0 then 1.20
  else if nearbyCapacity / demand ≥ 2.0 then 1.10
  else if nearbyCapacity / demand ≥ 1.5 then 1.00
  else if nearbyCapacity / demand ≥ 1.0 then 0.95
  else if nearbyCapacity / demand ≥ 0.7 then 0.85
  else if nearbyCapacity / demand ≥ 0.5 then 0.70
  else 0.50

theorem adequacy_factor_eq_bands (a dm : ℚ) (hdm : 0 < dm) :
    calculate_capacity_adequacy_factor a dm = adequacyBandsSpec a dm := by
  unfold calculate_capacity_adequacy_factor adequacyBandsSpec
  rw [if_neg (not_le.mpr hdm)]

/-- C3: with a positive demand target, the clean-generation score is the base
score multiplied by the adequacy factor determined by the fixed ratio bands
(3.0, 2.0, 1.5, 1.0, 0.7, 0.5 mapping to 1.20, 1.10, 1.00, 0.95, 0.85, 0.70,
else 0.50), where nearby capacity sums capacity times multiplier over sources
within 300 km, rounded to 1 decimal; in particular nearby clean capacity
300 MW against demand 1000 MW at base score 100 yields 50.0. -/
theorem clean_gen_adequacy_bands :
    (∀ (dist : DistFn) (nlat nlon : ℚ) (srcs : List EnergySource) (norm dm : ℚ),
      srcs ≠ [] → 0 < dm →
      calculate_clean_gen_score dist nlat nlon srcs norm (some dm) =
        round1 (clean_base_score dist nlat nlon srcs norm *
          adequacyBandsSpec
            (((srcs.filter fun s => dist nlat nlon s.latitude s.longitude < 300).map
              fun s => s.capacity_mw * s.clean_multiplier).sum) dm)) ∧
    calculate_clean_gen_score zeroDist 0 0 [⟨0, 0, 300, 1⟩] 100.0 (some 1000) = 50.0 := by
  constructor
  · intro dist nlat nlon srcs norm dm hne hdm
    have hemp : srcs.isEmpty = false := by
      cases srcs with
      | nil => exact absurd rfl hne
      | cons a l => rfl
    have hnearby : clean_nearby_capacity dist nlat nlon srcs =
        ((srcs.filter fun s => dist nlat nlon s.latitude s.longitude < 300).map
          fun s => s.capacity_mw * s.clean_multiplier).sum := by
      unfold clean_nearby_capacity DISTANCE_FAIR
      exact sum_map_ite (fun s => dist nlat nlon s.latitude s.longitude < 300)
        (fun s => s.capacity_mw * s.clean_multiplier) srcs
    unfold calculate_clean_gen_score
    rw [hemp]
    simp only [Bool.false_eq_true, if_false, if_pos hdm]
    rw [adequacy_factor_eq_bands _ _ hdm, hnearby]
  · norm_num [calculate_clean_gen_score, clean_base_score, clean_raw_score,
      clean_nearby_capacity, calculate_capacity_adequacy_factor, proximity_decay_factor,
      round1, pyRound, ratFloor_eq_floor, zeroDist, DISTANCE_EXCELLENT, DISTANCE_GOOD,
      DISTANCE_MODERATE, DISTANCE_FAIR, List.isEmpty_cons]

theorem clean_gen_adequacy_bands_witness :
    ([⟨0, 0, 300, 1⟩] : List EnergySource) ≠ [] ∧ (0 : ℚ) < 1000 ∧
      calculate_clean_gen_score zeroDist 0 0 [⟨0, 0, 300, 1⟩] 100.0 (some 1000) =
        round1 (clean_base_score zeroDist 0 0 [⟨0, 0, 300, 1⟩] 100.0 *
          adequacyBandsSpec
            ((([⟨0, 0, 300, 1⟩] : List EnergySource).filter
                (fun s => zeroDist 0 0 s.latitude s.longitude < 300)).map
              (fun s => s.capacity_mw * s.clean_multiplier)).sum 1000) :=
  ⟨List.cons_ne_nil _ _, by norm_num,
    clean_gen_adequacy_bands.1 zeroDist 0 0 [⟨0, 0, 300, 1⟩] 100.0 1000
      (List.cons_ne_nil _ _) (by norm_num)⟩

/-- C10: with an empty source catalog the calculators return their documented
neutral values instead of failing: 0.0 for the clean-generation score and
50.0 for the transmission score, at every location, normalization factor and
demand argument. -/
theorem empty_catalog_defaults :
    ∀ (dist : DistFn) (nlat nlon norm : ℚ) (dm : Option ℚ),
      calculate_clean_gen_score dist nlat nlon [] norm dm = 0.0 ∧
        calculate_transmission_score dist nlat nlon [] norm = 50.0 := by
  intro dist nlat nlon norm dm
  exact ⟨rfl, rfl⟩

/-- C7: the capacity-adequacy adjustment multiplies the clamped base score and
the result is not re-clamped to [0,100]: a concrete demand-target input
returns 120, strictly above 100; for every catalog of nonnegative capacities
and multipliers and positive normalization factor the result never exceeds
120 (clamped base at most 100 times the maximal 1.2 factor); and without a
demand target the result always lies in [0, 100]. -/
theorem adequacy_bonus_unclamped_bounds :
    (calculate_clean_gen_score zeroDist 0 0 [⟨0, 0, 3000, 1⟩] 100.0 (some 1000) = 120 ∧
      (100 : ℚ) < 120) ∧
    (∀ (dist : DistFn) (nlat nlon : ℚ) (srcs : List EnergySource) (norm : ℚ) (dm : Option ℚ),
      (∀ s ∈ srcs, 0 ≤ s.capacity_mw ∧ 0 ≤ s.clean_multiplier) → 0 < norm →
      calculate_clean_gen_score dist nlat nlon srcs norm dm ≤ 120) ∧
    (∀ (dist : DistFn) (nlat nlon : ℚ) (srcs : List EnergySource) (norm : ℚ),
      (∀ s ∈ srcs, 0 ≤ s.capacity_mw ∧ 0 ≤ s.clean_multiplier) → 0 < norm →
      0 ≤ calculate_clean_gen_score dist nlat nlon srcs norm none ∧
        calculate_clean_gen_score dist nlat nlon srcs norm none ≤ 100) := by
  refine ⟨⟨?_, by norm_num⟩, ?_, ?_⟩
  · norm_num [calculate_clean_gen_score, clean_base_score, clean_raw_score,
      clean_nearby_capacity, calculate_capacity_adequacy_factor, proximity_decay_factor,
      round1, pyRound, ratFloor_eq_floor, zeroDist, DISTANCE_EXCELLENT, DISTANCE_GOOD,
      DISTANCE_MODERATE, DISTANCE_FAIR, List.isEmpty_cons]
  · intro dist nlat nlon srcs norm dm h hn
    obtain ⟨hb0, hb100⟩ := clean_base_score_bounds dist nlat nlon srcs norm h hn
    have hle : ∀ y : ℚ, y ≤ 120 → round1 y ≤ 120 := by
      intro y hy
      have h2 := round1_le_intBound y 120 (by push_cast; linarith)
      push_cast at h2
      linarith
    cases dm with
    | none =>
      simp only [calculate_clean_gen_score]
      by_cases he : srcs.isEmpty
      · simp only [he, if_true]
        norm_num
      · simp only [he, Bool.false_eq_true, if_false]
        exact hle _ (by linarith)
    | some dm =>
      simp only [calculate_clean_gen_score]
      by_cases he : srcs.isEmpty
      · simp only [he, if_true]
        norm_num
      · simp only [he, Bool.false_eq_true, if_false]
        by_cases hdm : 0 < dm
        · rw [if_pos hdm]
          obtain ⟨hf0, hf12⟩ :=
            adequacy_factor_bounds (clean_nearby_capacity dist nlat nlon srcs) dm
          have hm := mul_le_mul hb100 hf12 hf0 (by norm_num : (0 : ℚ) ≤ 100)
          exact hle _ (by norm_num at hm; linarith)
        · rw [if_neg hdm]
          exact hle _ (by linarith)
  · intro dist nlat nlon srcs norm h hn
    obtain ⟨hb0, hb100⟩ := clean_base_score_bounds dist nlat nlon srcs norm h hn
    simp only [calculate_clean_gen_score]
    by_cases he : srcs.isEmpty
    · simp only [he, if_true]
      norm_num
    · simp only [he, Bool.false_eq_true, if_false]
      constructor
      · have h2 := intBound_le_round1 (clean_base_score dist nlat nlon srcs norm) 0
          (by push_cast; linarith)
        push_cast at h2
        linarith
      · have h2 := round1_le_intBound (clean_base_score dist nlat nlon srcs norm) 100
          (by push_cast; linarith)
        push_cast at h2
        linarith

theorem adequacy_bonus_unclamped_bounds_witness :
    calculate_clean_gen_score zeroDist 0 0 [⟨0, 0, 300, 1⟩] 100.0 (some 1000) ≤ 120 ∧
      0 ≤ calculate_clean_gen_score zeroDist 0 0 [⟨0, 0, 300, 1⟩] 100.0 none ∧
        calculate_clean_gen_score zeroDist 0 0 [⟨0, 0, 300, 1⟩] 100.0 none ≤ 100 :=
  ⟨adequacy_bonus_unclamped_bounds.2.1 zeroDist 0 0 [⟨0, 0, 300, 1⟩] 100.0 (some 1000)
      (by intro s hs; rw [List.mem_singleton] at hs; subst hs; exact ⟨by norm_num, by norm_num⟩)
      (by norm_num),
    adequacy_bonus_unclamped_bounds.2.2 zeroDist 0 0 [⟨0, 0, 300, 1⟩] 100.0
      (by intro s hs; rw [List.mem_singleton] at hs; subst hs; exact ⟨by norm_num, by norm_num⟩)
      (by norm_num)⟩

/-! ## Composite scorer (models.py lines 221-242, siting_engine.py lines 33-85) -/

/-- Weight allocation for siting criteria (models.py `SitingWeights`). -/
structure SitingWeights where
  weight_clean : ℚ
  weight_transmission : ℚ
  weight_reliability : ℚ
deriving DecidableEq

/-- Python `math.isclose(a, b, rel_tol=1e-9)` with the default `abs_tol=0`:
the distance is within the relative tolerance of the larger magnitude. -/
def isclose (a b : ℚ) : Prop := |a - b| ≤ 1e-9 * max |a| |b|

instance (a b : ℚ) : Decidable (isclose a b) := by
  unfold isclose
  infer_instance

def SitingWeights.total (w : SitingWeights) : ℚ :=
  w.weight_clean + w.weight_transmission + w.weight_reliability

/-- `SitingWeights.validate_sum` raises unless the weights sum to 1.0 within
`math.isclose` relative tolerance 1e-9. -/
def SitingWeights.validSum (w : SitingWeights) : Prop := isclose w.total 1

instance (w : SitingWeights) : Decidable w.validSum := by
  unfold SitingWeights.validSum
  infer_instance

/-- Grid node restricted to the three dimension scores that
`calculate_composite_score` reads (models.py `GridNode`, scores on a 0-100
scale). -/
structure GridNode where
  clean_gen : ℚ
  transmission_headroom : ℚ
  reliability : ℚ
deriving DecidableEq

/-- Output record of `calculate_composite_score` (models.py `ScoreBreakdown`). -/
structure ScoreBreakdown where
  clean_gen_score : ℚ
  clean_gen_contribution : ℚ
  transmission_score : ℚ
  transmission_contribution : ℚ
  reliability_score : ℚ
  reliability_contribution : ℚ
  composite_score : ℚ
  weights_used : SitingWeights
deriving DecidableEq

/-- The unrounded weighted sum of source lines 60-65. -/
def compositeValue (node : GridNode) (w : SitingWeights) : ℚ :=
  node.clean_gen * w.weight_clean + node.transmission_headroom * w.weight_transmission +
    node.reliability * w.weight_reliability

/-- Embedding of `SitingEngine.calculate_composite_score` (siting_engine.py
lines 33-85): validates the weights, then builds the breakdown; each stored
contribution is rounded to 1 decimal, and the composite is the rounded sum of
the unrounded contributions. -/
def calculate_composite_score (node : GridNode) (w : SitingWeights) :
    Except String ScoreBreakdown :=
  if w.validSum then
    .ok { clean_gen_score := node.clean_gen,
          clean_gen_contribution := round1 (node.clean_gen * w.weight_clean),
          transmission_score := node.transmission_headroom,
          transmission_contribution := round1 (node.transmission_headroom * w.weight_transmission),
          reliability_score := node.reliability,
          reliability_contribution := round1 (node.reliability * w.weight_reliability),
          composite_score := round1 (compositeValue node w),
          weights_used := w }
  else .error "Weights must sum to 1.0"

theorem validSum_04_03_03 : (SitingWeights.mk 0.4 0.3 0.3).validSum := by
  unfold SitingWeights.validSum isclose SitingWeights.total
  norm_num [abs_eq_max_neg, max_def]

/-- C5 counterexample: on the node with clean-generation score 1.11 and
weights (0.4, 0.3, 0.3) the returned breakdown stores a clean contribution of
0.4, which differs from score times weight = 0.444: the stored per-dimension
contributions are rounded to 1 decimal, not exact products. -/
theorem composite_contribution_rounded_counterexample :
    (calculate_composite_score ⟨1.11, 0, 0⟩ ⟨0.4, 0.3, 0.3⟩).map
        (fun b => b.clean_gen_contribution) = .ok 0.4 ∧
      (0.4 : ℚ) ≠ (1.11 : ℚ) * 0.4 := by
  constructor
  · unfold calculate_composite_score
    rw [if_pos validSum_04_03_03]
    simp only [Except.map]
    norm_num [round1, pyRound, ratFloor_eq_floor]
  · norm_num

/-- C5 amended: for every node and every weight vector passing validation,
`calculate_composite_score` returns a breakdown whose composite score equals
round(wc*c + wt*t + wr*r, 1) exactly and whose per-dimension contribution
fields equal round(score times weight, 1) (the contributions are stored
rounded to 1 decimal; the composite is computed from the unrounded
products). -/
theorem composite_score_formula (node : GridNode) (w : SitingWeights)
    (hv : w.validSum) :
    calculate_composite_score node w = .ok
      { clean_gen_score := node.clean_gen,
        clean_gen_contribution := round1 (node.clean_gen * w.weight_clean),
        transmission_score := node.transmission_headroom,
        transmission_contribution := round1 (node.transmission_headroom * w.weight_transmission),
        reliability_score := node.reliability,
        reliability_contribution := round1 (node.reliability * w.weight_reliability),
        composite_score := round1 (w.weight_clean * node.clean_gen +
          w.weight_transmission * node.transmission_headroom +
          w.weight_reliability * node.reliability),
        weights_used := w } := by
  unfold calculate_composite_score
  rw [if_pos hv]
  have hc : compositeValue node w = w.weight_clean * node.clean_gen +
      w.weight_transmission * node.transmission_headroom +
      w.weight_reliability * node.reliability := by
    unfold compositeValue
    ring
  rw [hc]

theorem composite_score_formula_witness :
    calculate_composite_score ⟨80, 60, 90⟩ ⟨0.4, 0.3, 0.3⟩ = .ok
      { clean_gen_score := 80,
        clean_gen_contribution := round1 ((80 : ℚ) * 0.4),
        transmission_score := 60,
        transmission_contribution := round1 ((60 : ℚ) * 0.3),
        reliability_score := 90,
        reliability_contribution := round1 ((90 : ℚ) * 0.3),
        composite_score := round1 ((0.4 : ℚ) * 80 + 0.3 * 60 + 0.3 * 90),
        weights_used := ⟨0.4, 0.3, 0.3⟩ } :=
  composite_score_formula ⟨80, 60, 90⟩ ⟨0.4, 0.3, 0.3⟩ validSum_04_03_03

/-- C6: `calculate_composite_score` fails with the validation error whenever
the weights do not sum to 1.0 within the relative tolerance 1e-9 of
`math.isclose`, before any scoring arithmetic runs, and succeeds for every
weight vector with components in [0,1] summing to 1.0 within that tolerance;
in particular it fails for (0.5, 0.5, 0.5) and succeeds for (0.4, 0.3, 0.3). -/
theorem weight_validation_gate :
    (∀ (node : GridNode) (w : SitingWeights), ¬ isclose w.total 1 →
      calculate_composite_score node w = .error "Weights must sum to 1.0") ∧
    (∀ (node : GridNode) (w : SitingWeights),
      0 ≤ w.weight_clean → w.weight_clean ≤ 1 →
      0 ≤ w.weight_transmission → w.weight_transmission ≤ 1 →
      0 ≤ w.weight_reliability → w.weight_reliability ≤ 1 →
      isclose w.total 1 → ∃ b, calculate_composite_score node w = .ok b) ∧
    (∀ node : GridNode,
      calculate_composite_score node ⟨0.5, 0.5, 0.5⟩ = .error "Weights must sum to 1.0") ∧
    (∀ node : GridNode, ∃ b, calculate_composite_score node ⟨0.4, 0.3, 0.3⟩ = .ok b) := by
  refine ⟨?_, ?_, ?_, ?_⟩
  · intro node w hv
    unfold calculate_composite_score SitingWeights.validSum
    rw [if_neg hv]
  · intro node w _ _ _ _ _ _ hv
    unfold calculate_composite_score SitingWeights.validSum
    rw [if_pos hv]
    exact ⟨_, rfl⟩
  · intro node
    unfold calculate_composite_score
    rw [if_neg]
    unfold SitingWeights.validSum isclose SitingWeights.total
    norm_num [abs_eq_max_neg, max_def]
  · intro node
    unfold calculate_composite_score
    rw [if_pos validSum_04_03_03]
    exact ⟨_, rfl⟩

theorem weight_validation_gate_witness :
    calculate_composite_score ⟨50, 50, 50⟩ ⟨0.2, 0.2, 0.2⟩ = .error "Weights must sum to 1.0" ∧
      ∃ b, calculate_composite_score ⟨50, 50, 50⟩ ⟨0.4, 0.3, 0.3⟩ = .ok b :=
  ⟨weight_validation_gate.1 ⟨50, 50, 50⟩ ⟨0.2, 0.2, 0.2⟩
      (by unfold isclose SitingWeights.total; norm_num [abs_eq_max_neg, max_def]),
    weight_validation_gate.2.1 ⟨50, 50, 50⟩ ⟨0.4, 0.3, 0.3⟩
      (by norm_num) (by norm_num) (by norm_num) (by norm_num) (by norm_num) (by norm_num)
      validSum_04_03_03⟩

/-! ## Ranking and percentile (siting_engine.py lines 380-466) -/

/-- Descending-by-score order used by `rank_sites` (Python stable sort with
reverse=True on the composite score). -/
def rankLE (a b : GridNode × ℚ) : Prop := b.2 ≤ a.2

instance : DecidableRel rankLE := fun a b => inferInstanceAs (Decidable (b.2 ≤ a.2))

instance : IsTotal (GridNode × ℚ) rankLE := ⟨fun a b => le_total b.2 a.2⟩

instance : IsTrans (GridNode × ℚ) rankLE := ⟨fun _ _ _ h1 h2 => le_trans h2 h1⟩

/-- Embedding of `SitingEngine.rank_sites` (source lines 380-404): score every
node with `calculate_composite_score` and sort descending by the rounded
composite score (stable, as in Python).  The per-node weight validation is
hoisted in front of the loop: on a non-empty list the first iteration already
raises for invalid weights, and on an empty list Python returns [] without
validating. -/
def rank_sites (nodes : List GridNode) (w : SitingWeights) :
    Except String (List (GridNode × ℚ)) :=
  if nodes.isEmpty then .ok []
  else if w.validSum then
    .ok ((nodes.map fun n => (n, round1 (compositeValue n w))).insertionSort rankLE)
  else .error "Weights must sum to 1.0"

/-- Embedding of `SitingEngine._calculate_percentile` (source lines 447-466):
count of strictly outscored entries of the ranked score list over the
population size, times 100, rounded to 1 decimal.  (On an empty population
the source would divide by zero; the claim below only concerns non-empty
populations.) -/
def calculate_percentile (node : GridNode) (all_nodes : List GridNode)
    (w : SitingWeights) : Except String ℚ :=
  match rank_sites all_nodes w with
  | .error e => .error e
  | .ok ranked =>
    if w.validSum then
      .ok (round1 ((((ranked.map Prod.snd).filter
          (fun s => round1 (compositeValue node w) > s)).length : ℚ) /
        ((ranked.map Prod.snd).length : ℚ) * 100))
    else .error "Weights must sum to 1.0"

/-- A maximal element of a duplicate-free rational list strictly exceeds
every other element: the filter retaining the strictly smaller elements drops
exactly one element. -/
theorem filter_lt_top_length (a : ℚ) :
    ∀ S : List ℚ, S.Nodup → a ∈ S → (∀ s ∈ S, s ≤ a) →
      ((S.filter fun s => a > s).length + 1 = S.length)
  | [], _, ha, _ => absurd ha (List.not_mem_nil a)
  | x :: xs, h, ha, hle => by
    rcases List.mem_cons.mp ha with hax | hax
    · subst hax
      have hxnot : a ∉ xs := (List.nodup_cons.mp h).1
      have hall : ∀ s ∈ xs, a > s := by
        intro s hs
        have h1 : s ≤ a := hle s (List.mem_cons_of_mem _ hs)
        have h2 : s ≠ a := fun he => hxnot (he ▸ hs)
        exact lt_of_le_of_ne h1 h2
      have hfx : (xs.filter fun s => a > s) = xs :=
        List.filter_eq_self.mpr fun s hs => decide_eq_true (hall s hs)
      rw [List.filter_cons, if_neg (by simp)]
      rw [hfx]
      rfl
    · have hxne : x ≠ a := by
        intro he
        exact (List.nodup_cons.mp h).1 (he ▸ hax)
      have hxlt : a > x := lt_of_le_of_ne (hle x (List.mem_cons_self x xs)) hxne
      have ih := filter_lt_top_length a xs (List.nodup_cons.mp h).2 hax
        (fun s hs => hle s (List.mem_cons_of_mem _ hs))
      rw [List.filter_cons, if_pos (by simpa using hxlt)]
      simp only [List.length_cons]
      omega

/-- C9: for a non-empty population whose rounded composite scores are
pairwise distinct, the percentile of the top-ranked site (head of the
descending ranking) equals round(100 * (n-1)/n, 1): the fraction of sites it
strictly outscores over the population size, times 100, rounded to 1
decimal. -/
theorem top_site_percentile (nodes : List GridNode) (w : SitingWeights)
    (pr : GridNode × ℚ) (rest : List (GridNode × ℚ))
    (hrank : rank_sites nodes w = .ok (pr :: rest))
    (hdist : (nodes.map fun n => round1 (compositeValue n w)).Pairwise (· ≠ ·)) :
    calculate_percentile pr.1 nodes w =
      .ok (round1 (100 * ((nodes.length : ℚ) - 1) / (nodes.length : ℚ))) := by
  have hrank0 := hrank
  unfold rank_sites at hrank
  by_cases hemp : nodes.isEmpty
  · rw [if_pos hemp] at hrank
    injection hrank with hlist
    exact absurd hlist.symm (List.cons_ne_nil pr rest)
  · rw [if_neg hemp] at hrank
    by_cases hv : w.validSum
    · rw [if_pos hv] at hrank
      injection hrank with hlist
      have hperm : List.Perm (pr :: rest) (nodes.map fun n => (n, round1 (compositeValue n w))) := by
        rw [← hlist]
        exact List.perm_insertionSort rankLE _
      have hsorted : List.Sorted rankLE (pr :: rest) := by
        rw [← hlist]
        exact List.sorted_insertionSort rankLE _
      have hmem : pr ∈ nodes.map fun n => (n, round1 (compositeValue n w)) :=
        hperm.mem_iff.mp (List.mem_cons_self pr rest)
      obtain ⟨n0, hn0, hpr⟩ := List.mem_map.mp hmem
      have hpr2 : pr.2 = round1 (compositeValue pr.1 w) := by
        rw [← hpr]
      have hmapsnd : ((nodes.map fun n => (n, round1 (compositeValue n w))).map Prod.snd) =
          nodes.map fun n => round1 (compositeValue n w) := by
        rw [List.map_map]
        rfl
      have hpermS : List.Perm ((pr :: rest).map Prod.snd)
          (nodes.map fun n => round1 (compositeValue n w)) := by
        have := hperm.map Prod.snd
        rwa [hmapsnd] at this
      have hle : ∀ s ∈ (pr :: rest).map Prod.snd, s ≤ pr.2 := by
        intro s hs
        obtain ⟨x, hx, rfl⟩ := List.mem_map.mp hs
        rcases List.mem_cons.mp hx with hx' | hx'
        · rw [hx']
        · exact List.rel_of_sorted_cons hsorted x hx'
      have hleS : ∀ s ∈ nodes.map fun n => round1 (compositeValue n w), s ≤ pr.2 :=
        fun s hs => hle s (hpermS.mem_iff.mpr hs)
      have hpr1 : pr.1 = n0 := by
        rw [← hpr]
      have hmemS : pr.2 ∈ nodes.map fun n => round1 (compositeValue n w) := by
        rw [hpr2, hpr1]
        exact List.mem_map_of_mem _ hn0
      have hnodup : (nodes.map fun n => round1 (compositeValue n w)).Nodup := hdist
      have hcount := filter_lt_top_length pr.2 _ hnodup hmemS hleS
      have hmlen : (nodes.map fun n => round1 (compositeValue n w)).length = nodes.length :=
        List.length_map _ _
      have hlen1 : ((pr :: rest).map Prod.snd).length = nodes.length := by
        rw [List.length_map, hperm.length_eq, List.length_map]
      simp only [calculate_percentile, hrank0]
      rw [if_pos hv]
      congr 1
      simp only [← hpr2]
      have hflen : (((pr :: rest).map Prod.snd).filter fun s => pr.2 > s).length =
          (((nodes.map fun n => round1 (compositeValue n w)).filter fun s => pr.2 > s)).length :=
        (hpermS.filter _).length_eq
      rw [hflen, hlen1]
      have hcq : ((((nodes.map fun n => round1 (compositeValue n w)).filter
          fun s => pr.2 > s).length : ℚ)) = (nodes.length : ℚ) - 1 := by
        rw [hmlen] at hcount
        have hq : ((((nodes.map fun n => round1 (compositeValue n w)).filter
            fun s => pr.2 > s).length : ℚ)) + 1 = (nodes.length : ℚ) := by
          exact_mod_cast congrArg (Nat.cast : ℕ → ℚ) hcount
        linarith
      rw [hcq]
      ring_nf
    · rw [if_neg hv] at hrank
      exact Except.noConfusion hrank

theorem top_site_percentile_witness :
    rank_sites [⟨80, 80, 80⟩, ⟨60, 60, 60⟩, ⟨40, 40, 40⟩] ⟨0.4, 0.3, 0.3⟩ =
      .ok [(⟨80, 80, 80⟩, 80), (⟨60, 60, 60⟩, 60), (⟨40, 40, 40⟩, 40)] ∧
    calculate_percentile ⟨80, 80, 80⟩ [⟨80, 80, 80⟩, ⟨60, 60, 60⟩, ⟨40, 40, 40⟩] ⟨0.4, 0.3, 0.3⟩ =
      .ok (round1 (100 *
        ((([⟨80, 80, 80⟩, ⟨60, 60, 60⟩, ⟨40, 40, 40⟩] : List GridNode).length : ℚ) - 1) /
        (([⟨80, 80, 80⟩, ⟨60, 60, 60⟩, ⟨40, 40, 40⟩] : List GridNode).length : ℚ))) := by
  have hr : rank_sites [⟨80, 80, 80⟩, ⟨60, 60, 60⟩, ⟨40, 40, 40⟩] ⟨0.4, 0.3, 0.3⟩ =
      .ok [(⟨80, 80, 80⟩, 80), (⟨60, 60, 60⟩, 60), (⟨40, 40, 40⟩, 40)] := by
    unfold rank_sites
    rw [if_neg (by simp), if_pos validSum_04_03_03]
    norm_num [compositeValue, round1, pyRound, ratFloor_eq_floor,
      List.insertionSort, List.orderedInsert, rankLE]
  refine ⟨hr, ?_⟩
  exact top_site_percentile [⟨80, 80, 80⟩, ⟨60, 60, 60⟩, ⟨40, 40, 40⟩] ⟨0.4, 0.3, 0.3⟩
    (⟨80, 80, 80⟩, 80) [(⟨60, 60, 60⟩, 60), (⟨40, 40, 40⟩, 40)] hr
    (by norm_num [compositeValue, round1, pyRound, ratFloor_eq_floor, List.pairwise_cons])

theorem isEmpty_false_of_ne {α : Type} (l : List α) (h : l ≠ []) : l.isEmpty = false := by
  cases l with
  | nil => exact absurd rfl h
  | cons a t => rfl

/-- C4 counterexample: with one candidate at the location of a single 0.5 MW
source, the 90th-percentile raw value (0.5) and the maximum raw score (0.5)
are both below the generation floor 1.0, yet the estimator returns the
maximum 0.5, not the hardcoded default 100.0 the claim prescribes for that
case (the default is reached only when the maximum equals 0, Python
falsiness). -/
theorem normalization_default_counterexample :
    estimate_normalization_factor zeroDist [(0, 0)] [⟨0, 0, 0.5, 1⟩] = 0.5 ∧
      percentile90 (clean_raw_scores zeroDist [(0, 0)] [⟨0, 0, 0.5, 1⟩]) = 0.5 ∧
      pymax (clean_raw_scores zeroDist [(0, 0)] [⟨0, 0, 0.5, 1⟩]) = 0.5 ∧
      (0.5 : ℚ) < 1 ∧ (0.5 : ℚ) ≠ 100 := by
  norm_num [estimate_normalization_factor, clean_raw_scores, clean_raw_score, percentile90,
    pymax, proximity_decay_factor, zeroDist, DISTANCE_EXCELLENT, DISTANCE_GOOD,
    DISTANCE_MODERATE, DISTANCE_FAIR, List.insertionSort, List.orderedInsert]

/-- C4 amended: on non-empty inputs each estimator takes the element at index
floor(0.9 n) of the ascending-sorted raw scores; below the floor (1.0 for
generation, 1000.0 for transmission) it falls back to the maximum raw score;
the hardcoded default is used for generation only when that maximum equals 0
(Python falsiness), and for transmission whenever the maximum is below
1000.0. -/
theorem normalization_fallback_amended :
    (∀ (dist : DistFn) (nodes : List (ℚ × ℚ)) (srcs : List EnergySource),
      nodes ≠ [] → srcs ≠ [] →
      estimate_normalization_factor dist nodes srcs =
        (if percentile90 (clean_raw_scores dist nodes srcs) < 1.0 then
          (if pymax (clean_raw_scores dist nodes srcs) = 0 then 100.0
           else pymax (clean_raw_scores dist nodes srcs))
         else percentile90 (clean_raw_scores dist nodes srcs))) ∧
    (∀ (dist : DistFn) (nodes : List (ℚ × ℚ)) (plants : List PowerPlant),
      nodes ≠ [] → plants ≠ [] →
      estimate_transmission_normalization_factor dist nodes plants =
        (if percentile90 (transmission_raw_scores dist nodes plants) < 1000.0 then
          (if pymax (transmission_raw_scores dist nodes plants) < 1000.0 then 5000.0
           else pymax (transmission_raw_scores dist nodes plants))
         else percentile90 (transmission_raw_scores dist nodes plants))) := by
  constructor
  · intro dist nodes srcs hn hs
    unfold estimate_normalization_factor
    rw [if_neg (by simp [isEmpty_false_of_ne _ hn, isEmpty_false_of_ne _ hs])]
  · intro dist nodes plants hn hp
    unfold estimate_transmission_normalization_factor
    rw [if_neg (by simp [isEmpty_false_of_ne _ hn, isEmpty_false_of_ne _ hp])]
    have hre : (transmission_raw_scores dist nodes plants).isEmpty = false := by
      unfold transmission_raw_scores
      cases nodes with
      | nil => exact absurd rfl hn
      | cons a t => rfl
    have hmd : pymax_or_default (transmission_raw_scores dist nodes plants) 5000.0 =
        pymax (transmission_raw_scores dist nodes plants) := by
      unfold pymax_or_default
      rw [hre]
      rfl
    rw [hmd]

theorem normalization_fallback_amended_witness :
    estimate_normalization_factor zeroDist [(0, 0)] [⟨0, 0, 200, 1⟩] =
      (if percentile90 (clean_raw_scores zeroDist [(0, 0)] [⟨0, 0, 200, 1⟩]) < 1.0 then
        (if pymax (clean_raw_scores zeroDist [(0, 0)] [⟨0, 0, 200, 1⟩]) = 0 then 100.0
         else pymax (clean_raw_scores zeroDist [(0, 0)] [⟨0, 0, 200, 1⟩]))
       else percentile90 (clean_raw_scores zeroDist [(0, 0)] [⟨0, 0, 200, 1⟩])) ∧
    estimate_transmission_normalization_factor zeroDist [(0, 0)] [⟨0, 0, 2000⟩] =
      (if percentile90 (transmission_raw_scores zeroDist [(0, 0)] [⟨0, 0, 2000⟩]) < 1000.0 then
        (if pymax (transmission_raw_scores zeroDist [(0, 0)] [⟨0, 0, 2000⟩]) < 1000.0 then 5000.0
         else pymax (transmission_raw_scores zeroDist [(0, 0)] [⟨0, 0, 2000⟩]))
       else percentile90 (transmission_raw_scores zeroDist [(0, 0)] [⟨0, 0, 2000⟩])) :=
  ⟨normalization_fallback_amended.1 zeroDist [(0, 0)] [⟨0, 0, 200, 1⟩]
      (List.cons_ne_nil _ _) (List.cons_ne_nil _ _),
    normalization_fallback_amended.2 zeroDist [(0, 0)] [⟨0, 0, 2000⟩]
      (List.cons_ne_nil _ _) (List.cons_ne_nil _ _)⟩
